import Mathlib

/-!
Verification of the hackutd-data2025 frontend: a shallow embedding of the
calendar page (ticket-to-event projection, color assignment, month grid),
the voice-assistant page (transcribe / analyze pipeline), the tickets page
(create / update payload construction) and the user-avatar color helper,
together with proofs of the specification claims about them.

JavaScript strings are modelled as Lean `String`; nullable values as
`Option`; JS truthiness of a nullable string (`!x` is true for `null`,
`undefined` and `""`) is `truthyStr`; 32-bit integer coercion (`x & x`,
`<<`) is `toInt32`; fallible array indexing is `List.get?`.
-/

/-- JS truthiness for a nullable string: `null`/`undefined`/`""` are falsy. -/
def truthyStr : Option String → Bool
  | none => false
  | some s => s != ""

/-- JS `a || b` for strings: `b` when `a` is empty. -/
def jsOrS (a b : String) : String := if a = "" then b else a

/-- JS `a || b` where `a` is a nullable string and `b` a string. -/
def jsOrStr (a : Option String) (b : String) : String :=
  match a with
  | none => b
  | some s => jsOrS s b

/-- JS `a || b` on nullable objects: `b` when `a` is null/undefined. -/
def jsOrOpt {α : Type} (a b : Option α) : Option α :=
  match a with
  | some x => some x
  | none => b

/-- JS `s.split("T")[0]`: the prefix of `s` before the first `'T'`. -/
def datePart (s : String) : String := ⟨s.data.takeWhile (fun c => c ≠ 'T')⟩

/-- JS `String.prototype.trim`: strip leading and trailing whitespace. -/
def jsTrim (s : String) : String :=
  ⟨((s.data.dropWhile Char.isWhitespace).reverse.dropWhile Char.isWhitespace).reverse⟩

/-- JS `String.prototype.toLowerCase` (ASCII-faithful). -/
def jsToLower (s : String) : String := ⟨s.data.map Char.toLower⟩

/-- JS `s.startsWith("#")`. -/
def startsWithHash (s : String) : Bool :=
  match s.data with
  | [] => false
  | c :: _ => c == '#'

/-- Coerce an integer to a signed 32-bit value, as JS `x & x` / `<<` do. -/
def toInt32 (n : Int) : Int := (n + 2 ^ 31) % 2 ^ 32 - 2 ^ 31

/-- One step of the `hashString` loop from the calendar page:
`hash = ((hash << 5) - hash) + str.charCodeAt(i); hash = hash & hash`. -/
def hashStep (h : Int) (c : Char) : Int :=
  toInt32 (toInt32 (h * 32) - h + c.toNat)

/-- The accumulated 32-bit hash over the characters of `str`. -/
def hashLoop (s : String) : Int := s.data.foldl hashStep 0

/-- Function `hashString` from the calendar page: the loop above followed by
`Math.abs`, hence a nonnegative integer. -/
def hashString (s : String) : Int := ((hashLoop s).natAbs : Int)

/-- An entry of `COLOR_PALETTE`: a Tailwind class name and a hex value. -/
structure PaletteColor where
  className : String
  hex : String
deriving DecidableEq, Repr

/-- Constant `COLOR_PALETTE` from the calendar page (20 entries). -/
def COLOR_PALETTE : List PaletteColor :=
  [⟨"bg-blue-500", "#3b82f6"⟩,
   ⟨"bg-green-500", "#22c55e"⟩,
   ⟨"bg-purple-500", "#a855f7"⟩,
   ⟨"bg-orange-500", "#f97316"⟩,
   ⟨"bg-pink-500", "#ec4899"⟩,
   ⟨"bg-cyan-500", "#06b6d4"⟩,
   ⟨"bg-yellow-500", "#eab308"⟩,
   ⟨"bg-indigo-500", "#6366f1"⟩,
   ⟨"bg-teal-500", "#14b8a6"⟩,
   ⟨"bg-rose-500", "#f43f5e"⟩,
   ⟨"bg-amber-500", "#f59e0b"⟩,
   ⟨"bg-emerald-500", "#10b981"⟩,
   ⟨"bg-violet-500", "#8b5cf6"⟩,
   ⟨"bg-fuchsia-500", "#d946ef"⟩,
   ⟨"bg-sky-500", "#0ea5e9"⟩,
   ⟨"bg-lime-500", "#84cc16"⟩,
   ⟨"bg-red-500", "#ef4444"⟩,
   ⟨"bg-blue-600", "#2563eb"⟩,
   ⟨"bg-green-600", "#16a34a"⟩,
   ⟨"bg-purple-600", "#9333ea"⟩]

/-- The palette index `hashString(ticket.id) % COLOR_PALETTE.length`. -/
def paletteIndex (id : String) : Nat :=
  (hashString id % (COLOR_PALETTE.length : Int)).toNat

/-- The `colorMap` of common label color names inside `getEventColor`. -/
def colorMap : List (String × String) :=
  [("cyan", "bg-cyan-500"),
   ("purple", "bg-purple-500"),
   ("yellow", "bg-yellow-500"),
   ("green", "bg-green-500"),
   ("red", "bg-red-500"),
   ("blue", "bg-blue-500"),
   ("orange", "bg-orange-500"),
   ("pink", "bg-pink-500"),
   ("indigo", "bg-indigo-500"),
   ("teal", "bg-teal-500"),
   ("lime", "bg-lime-500"),
   ("amber", "bg-amber-500"),
   ("emerald", "bg-emerald-500"),
   ("sky", "bg-sky-500"),
   ("violet", "bg-violet-500"),
   ("fuchsia", "bg-fuchsia-500"),
   ("rose", "bg-rose-500")]

/-- Result of `getEventColor`: a class name plus an optional inline
`backgroundColor` style. -/
structure EventColor where
  className : String
  style : Option String
deriving DecidableEq, Repr

inductive TicketStatus where
  | «open»
  | in_progress
  | resolved
  | closed
deriving DecidableEq, Repr

inductive Priority where
  | urgent
  | high
  | medium
  | low
  | none
deriving DecidableEq, Repr

structure LabelRec where
  id : String
  name : String
  color : Option String := Option.none
deriving DecidableEq, Repr

structure UserRec where
  id : Nat
  name : String
  email : Option String := Option.none
  avatar_url : Option String := Option.none
  initials : Option String := Option.none
  color : Option String := Option.none
deriving DecidableEq, Repr

structure ProjectRef where
  id : String
  name : String
  identifier : String
deriving DecidableEq, Repr

/-- The `Ticket` interface of the calendar page (Firestore string ids). -/
structure Ticket where
  id : String
  title : String
  summary : Option String := Option.none
  start_date : Option String := Option.none
  end_date : Option String := Option.none
  assignee : Option String := Option.none
  assignee_id : Option String := Option.none
  status : TicketStatus
  priority : Priority
  estimated_hours : Option Nat := Option.none
  project_id : Option String := Option.none
  cycle_id : Option String := Option.none
  module_id : Option String := Option.none
  parent_ticket_id : Option String := Option.none
  created_at : String := ""
  updated_at : String := ""
  labels : List LabelRec := []
  assignee_user : Option UserRec := Option.none
  project : Option ProjectRef := Option.none
deriving DecidableEq, Repr

/-- The label-color guard of `getEventColor`:
`ticket.labels && ticket.labels.length > 0 && ticket.labels[0].color`. -/
def firstLabelColor (t : Ticket) : Option String :=
  match t.labels with
  | [] => Option.none
  | l :: _ =>
    match l.color with
    | Option.none => Option.none
    | some c => if c = "" then Option.none else some c

/-- Function `getEventColor` from the calendar page.  Array indexing into
`COLOR_PALETTE` is modelled with `List.get?`, so the result is `none`
exactly when the JS code would read `undefined` off the palette. -/
def getEventColor (t : Ticket) : Option EventColor :=
  match firstLabelColor t with
  | some labelColor =>
    if startsWithHash labelColor then
      some ⟨"", some labelColor⟩
    else
      some ⟨(colorMap.lookup (jsToLower labelColor)).getD "bg-slate-500", Option.none⟩
  | Option.none =>
    match t.priority with
    | .urgent => some ⟨"bg-red-500", Option.none⟩
    | .high => some ⟨"bg-orange-500", Option.none⟩
    | .medium => some ⟨"bg-yellow-500", Option.none⟩
    | .low => some ⟨"bg-blue-300", Option.none⟩
    | .none =>
      let hash := paletteIndex t.id
      match t.status with
      | .«open» => (COLOR_PALETTE.get? hash).map (fun c => ⟨c.className, Option.none⟩)
      | .in_progress =>
        (COLOR_PALETTE.get? ((hash + 1) % COLOR_PALETTE.length)).map
          (fun c => ⟨c.className, Option.none⟩)
      | .resolved => some ⟨"bg-green-500", Option.none⟩
      | .closed => some ⟨"bg-slate-600", Option.none⟩

/-- The fixed 16-color palette inside `getUserColor` (user-avatar.tsx). -/
def avatarColors : List String :=
  ["#3b82f6", "#22c55e", "#a855f7", "#f97316", "#ec4899", "#06b6d4",
   "#eab308", "#6366f1", "#14b8a6", "#f43f5e", "#f59e0b", "#10b981",
   "#8b5cf6", "#d946ef", "#0ea5e9", "#84cc16"]

/-- Function `getUserColor` from user-avatar.tsx: `colors[userId % colors.length]`. -/
def getUserColor (userId : Nat) : Option String :=
  avatarColors.get? (userId % avatarColors.length)

/-- The hash-based ticket color: `COLOR_PALETTE[hashString(id) % 20]`. -/
def ticketHashColor (id : String) : Option PaletteColor :=
  COLOR_PALETTE.get? (paletteIndex id)

/-- A `CalendarEvent` as pushed by the `events` memo of the calendar page.
The `color` field stores the value of `getEventColor(ticket)`. -/
structure CalendarEvent where
  id : String
  title : String
  date : String
  hours : Nat
  color : Option EventColor
  assignee : Option String
  assignee_user : Option UserRec
  status : TicketStatus
  ticketId : String
  project : Option ProjectRef
deriving DecidableEq, Repr

/-- The filler `ticket.estimated_hours || 8` (0 is falsy in JS). -/
def ticketHours (t : Ticket) : Nat :=
  match t.estimated_hours with
  | Option.none => 8
  | some h => if h = 0 then 8 else h

/-- The truncation `title.length > 20 ? title.substring(0, 17) + "..." : title`. -/
def truncTitle (s : String) : String :=
  if s.data.length > 20 then ⟨s.data.take 17⟩ ++ "..." else s

/-- The event pushed for a ticket start date. -/
def mkStartEvent (t : Ticket) : CalendarEvent :=
  { id := "start-" ++ t.id
    title := truncTitle t.title
    date := datePart (t.start_date.getD "")
    hours := ticketHours t
    color := getEventColor t
    assignee := t.assignee
    assignee_user := t.assignee_user
    status := t.status
    ticketId := t.id
    project := t.project }

/-- The event pushed for a ticket end date. -/
def mkEndEvent (t : Ticket) : CalendarEvent :=
  { id := "end-" ++ t.id
    title := truncTitle t.title
    date := datePart (t.end_date.getD "")
    hours := ticketHours t
    color := getEventColor t
    assignee := t.assignee
    assignee_user := t.assignee_user
    status := t.status
    ticketId := t.id
    project := t.project }

/-- The `eventMap` of the calendar page: a JS `Map` from date string to a
mutable array of events, in key-insertion order. -/
abbrev EventMap := List (String × List CalendarEvent)

/-- Lookup `eventMap.get(k)` (with `[]` for a missing key). -/
def mapGetD (m : EventMap) (k : String) : List CalendarEvent :=
  match m with
  | [] => []
  | (k', l) :: rest => if k' = k then l else mapGetD rest k

/-- The combined `if (!eventMap.has(k)) eventMap.set(k, []);
eventMap.get(k)!.push(e)` idiom: append `e` to the bucket of `k`,
creating the bucket at the end of the map when absent. -/
def pushEvent (m : EventMap) (k : String) (e : CalendarEvent) : EventMap :=
  match m with
  | [] => [(k, [e])]
  | (k', l) :: rest =>
    if k' = k then (k', l ++ [e]) :: rest else (k', l) :: pushEvent rest k e

/-- Flattening the map to the `allEvents` array (`eventMap.forEach` is in
key-insertion order). -/
def flattenMap (m : EventMap) : List CalendarEvent := (m.map Prod.snd).flatten

/-- The end-date half of the `tickets.forEach` body in the `events` memo:
push an end event for a (truthy) end date different from the start date,
unless an event of the same ticket already sits in that date bucket. -/
def processTicketEnd (m1 : EventMap) (t : Ticket) : EventMap :=
  if truthyStr t.end_date ∧ t.end_date ≠ t.start_date then
    if (mapGetD m1 (datePart (t.end_date.getD ""))).any (fun e => e.ticketId == t.id) then m1
    else pushEvent m1 (datePart (t.end_date.getD "")) (mkEndEvent t)
  else m1

/-- The body of `tickets.forEach` in the `events` memo: skip tickets with
neither date, push a start event for a (truthy) start date, then run the
end-date half on the result. -/
def processTicket (m : EventMap) (t : Ticket) : EventMap :=
  if truthyStr t.start_date = false ∧ truthyStr t.end_date = false then m
  else
    processTicketEnd
      (if truthyStr t.start_date then
        pushEvent m (datePart (t.start_date.getD "")) (mkStartEvent t)
      else m) t

/-- The `events` memo: fold all tickets through the map, then flatten. -/
def events (tickets : List Ticket) : List CalendarEvent :=
  flattenMap (tickets.foldl processTicket [])

/-- Function `getEventsForDate` from the calendar page. -/
def getEventsForDate (evts : List CalendarEvent) (dateStr : String) : List CalendarEvent :=
  evts.filter (fun e => e.date == dateStr)

/-- The events the `events` memo generates for one ticket in isolation
(valid as a description of its contribution when ticket ids are unique):
a start event when the start date is truthy, and an end event when the
end date is truthy, differs from the start date, and its day part does
not coincide with the day part of a truthy start date. -/
def newEvents (t : Ticket) : List CalendarEvent :=
  if truthyStr t.start_date = false ∧ truthyStr t.end_date = false then []
  else
    (if truthyStr t.start_date then [mkStartEvent t] else [])
      ++ (if truthyStr t.end_date ∧ t.end_date ≠ t.start_date ∧
            ¬(truthyStr t.start_date = true ∧
              datePart (t.end_date.getD "") = datePart (t.start_date.getD ""))
          then [mkEndEvent t] else [])

/-- The dates claimed for a ticket: the day part of its start date, and
the day part of its end date when present with a distinct day part. -/
def expectedDates (t : Ticket) : List String :=
  (if truthyStr t.start_date then [datePart (t.start_date.getD "")] else [])
    ++ (if truthyStr t.end_date ∧
          (truthyStr t.start_date = true →
            datePart (t.end_date.getD "") ≠ datePart (t.start_date.getD ""))
        then [datePart (t.end_date.getD "")] else [])

theorem flattenMap_cons (k : String) (l : List CalendarEvent) (rest : EventMap) :
    flattenMap ((k, l) :: rest) = l ++ flattenMap rest := by
  simp [flattenMap]

theorem mem_mapGetD (m : EventMap) (k : String) (x : CalendarEvent)
    (h : x ∈ mapGetD m k) : x ∈ flattenMap m := by
  induction m with
  | nil => simp [mapGetD] at h
  | cons kv rest ih =>
    obtain ⟨k₀, l⟩ := kv
    rw [flattenMap_cons]
    by_cases h0 : k₀ = k
    · rw [mapGetD, if_pos h0] at h
      exact List.mem_append_left _ h
    · rw [mapGetD, if_neg h0] at h
      exact List.mem_append_right _ (ih h)

theorem mapGetD_pushEvent_self (m : EventMap) (k : String) (e : CalendarEvent) :
    mapGetD (pushEvent m k e) k = mapGetD m k ++ [e] := by
  induction m with
  | nil => simp [pushEvent, mapGetD]
  | cons kv rest ih =>
    obtain ⟨k₀, l⟩ := kv
    by_cases h0 : k₀ = k
    · rw [pushEvent, if_pos h0, mapGetD, if_pos h0, mapGetD, if_pos h0]
    · rw [pushEvent, if_neg h0, mapGetD, if_neg h0, mapGetD, if_neg h0]
      exact ih

theorem mapGetD_pushEvent_ne (m : EventMap) (k k' : String) (e : CalendarEvent)
    (h : k' ≠ k) : mapGetD (pushEvent m k e) k' = mapGetD m k' := by
  induction m with
  | nil => simp [pushEvent, mapGetD, Ne.symm h]
  | cons kv rest ih =>
    obtain ⟨k₀, l⟩ := kv
    by_cases h0 : k₀ = k
    · subst h0
      simp [pushEvent, mapGetD, Ne.symm h]
    · by_cases h1 : k₀ = k'
      · simp [pushEvent, mapGetD, h0, h1, h]
      · simp [pushEvent, mapGetD, h0, h1, h, ih]

theorem flattenMap_pushEvent_perm (m : EventMap) (k : String) (e : CalendarEvent) :
    List.Perm (flattenMap (pushEvent m k e)) (flattenMap m ++ [e]) := by
  induction m with
  | nil => simp [pushEvent, flattenMap]
  | cons kv rest ih =>
    obtain ⟨k₀, l⟩ := kv
    by_cases h0 : k₀ = k
    · rw [pushEvent, if_pos h0, flattenMap_cons, flattenMap_cons, List.append_assoc,
        List.append_assoc]
      exact List.Perm.append_left l List.perm_append_comm
    · rw [pushEvent, if_neg h0, flattenMap_cons, flattenMap_cons, List.append_assoc]
      exact List.Perm.append_left l ih

theorem mkStartEvent_ticketId (t : Ticket) : (mkStartEvent t).ticketId = t.id := rfl

theorem mkEndEvent_ticketId (t : Ticket) : (mkEndEvent t).ticketId = t.id := rfl

theorem newEvents_ticketId (t : Ticket) (e : CalendarEvent) (he : e ∈ newEvents t) :
    e.ticketId = t.id := by
  unfold newEvents at he
  split at he
  · simp at he
  · rcases List.mem_append.mp he with h | h
    · split at h
      · rw [List.mem_singleton] at h
        rw [h, mkStartEvent_ticketId]
      · simp at h
    · split at h
      · rw [List.mem_singleton] at h
        rw [h, mkEndEvent_ticketId]
      · simp at h

theorem truthy_ne_falsy (a b : Option String) (ha : truthyStr a = true)
    (hb : truthyStr b = false) : a ≠ b := by
  intro h
  rw [h, hb] at ha
  exact Bool.false_ne_true ha


theorem newEvents_empty (t : Ticket) (hs : truthyStr t.start_date = false)
    (he : truthyStr t.end_date = false) : newEvents t = [] := by
  simp [newEvents, hs, he]

theorem newEvents_start_only (t : Ticket) (hs : truthyStr t.start_date = true)
    (he : truthyStr t.end_date = false) : newEvents t = [mkStartEvent t] := by
  simp [newEvents, hs, he]

theorem newEvents_end_only (t : Ticket) (hs : truthyStr t.start_date = false)
    (he : truthyStr t.end_date = true) : newEvents t = [mkEndEvent t] := by
  have hne : t.end_date ≠ t.start_date := truthy_ne_falsy _ _ he hs
  simp [newEvents, hs, he, hne]

theorem newEvents_one (t : Ticket) (hs : truthyStr t.start_date = true)
    (he : truthyStr t.end_date = true)
    (hd : datePart (t.end_date.getD "") = datePart (t.start_date.getD "")) :
    newEvents t = [mkStartEvent t] := by
  simp [newEvents, hs, he, hd]

theorem newEvents_two (t : Ticket) (hs : truthyStr t.start_date = true)
    (he : truthyStr t.end_date = true)
    (hd : datePart (t.end_date.getD "") ≠ datePart (t.start_date.getD "")) :
    newEvents t = [mkStartEvent t, mkEndEvent t] := by
  have hne : t.end_date ≠ t.start_date := by
    intro h
    exact hd (by rw [h])
  simp [newEvents, hs, he, hd, hne]

theorem processTicketEnd_skip (m1 : EventMap) (t : Ticket)
    (h : ¬(truthyStr t.end_date = true ∧ t.end_date ≠ t.start_date)) :
    processTicketEnd m1 t = m1 := by
  unfold processTicketEnd
  rw [if_neg h]

theorem processTicketEnd_dup (m1 : EventMap) (t : Ticket)
    (he : truthyStr t.end_date = true) (hne : t.end_date ≠ t.start_date)
    (hany : (mapGetD m1 (datePart (t.end_date.getD ""))).any
      (fun e => e.ticketId == t.id) = true) :
    processTicketEnd m1 t = m1 := by
  unfold processTicketEnd
  rw [if_pos ⟨he, hne⟩, if_pos hany]

theorem processTicketEnd_push (m1 : EventMap) (t : Ticket)
    (he : truthyStr t.end_date = true) (hne : t.end_date ≠ t.start_date)
    (hany : (mapGetD m1 (datePart (t.end_date.getD ""))).any
      (fun e => e.ticketId == t.id) = false) :
    processTicketEnd m1 t = pushEvent m1 (datePart (t.end_date.getD "")) (mkEndEvent t) := by
  unfold processTicketEnd
  rw [if_pos ⟨he, hne⟩, if_neg (by simp [hany])]

theorem processTicket_skip (m : EventMap) (t : Ticket)
    (hs : truthyStr t.start_date = false) (he : truthyStr t.end_date = false) :
    processTicket m t = m := by
  unfold processTicket
  rw [if_pos ⟨hs, he⟩]

theorem processTicket_start (m : EventMap) (t : Ticket)
    (hs : truthyStr t.start_date = true) :
    processTicket m t =
      processTicketEnd (pushEvent m (datePart (t.start_date.getD "")) (mkStartEvent t)) t := by
  unfold processTicket
  rw [if_neg (by simp [hs]), if_pos hs]

theorem processTicket_nostart (m : EventMap) (t : Ticket)
    (hs : truthyStr t.start_date = false) (he : truthyStr t.end_date = true) :
    processTicket m t = processTicketEnd m t := by
  unfold processTicket
  rw [if_neg (by simp [he]), if_neg (by simp [hs])]

theorem processTicket_perm (m : EventMap) (t : Ticket)
    (hm : ∀ e ∈ flattenMap m, e.ticketId ≠ t.id) :
    List.Perm (flattenMap (processTicket m t)) (flattenMap m ++ newEvents t) := by
  by_cases hs : truthyStr t.start_date = true
  · by_cases he : truthyStr t.end_date = true
    · by_cases hne : t.end_date = t.start_date
      · rw [processTicket_start m t hs,
          processTicketEnd_skip _ t (fun h => h.2 hne),
          newEvents_one t hs he (by rw [hne])]
        exact flattenMap_pushEvent_perm m _ _
      · by_cases hd : datePart (t.end_date.getD "") = datePart (t.start_date.getD "")
        · have hany : (mapGetD (pushEvent m (datePart (t.start_date.getD ""))
              (mkStartEvent t)) (datePart (t.end_date.getD ""))).any
              (fun e => e.ticketId == t.id) = true := by
            rw [hd, mapGetD_pushEvent_self, List.any_append]
            simp [mkStartEvent_ticketId]
          rw [processTicket_start m t hs, processTicketEnd_dup _ t he hne hany,
            newEvents_one t hs he hd]
          exact flattenMap_pushEvent_perm m _ _
        · have hany : (mapGetD (pushEvent m (datePart (t.start_date.getD ""))
              (mkStartEvent t)) (datePart (t.end_date.getD ""))).any
              (fun e => e.ticketId == t.id) = false := by
            rw [mapGetD_pushEvent_ne _ _ _ _ hd, List.any_eq_false]
            intro x hx
            simpa using hm x (mem_mapGetD m _ x hx)
          rw [processTicket_start m t hs, processTicketEnd_push _ t he hne hany,
            newEvents_two t hs he hd]
          refine (flattenMap_pushEvent_perm _ _ _).trans ?_
          have h2 := (flattenMap_pushEvent_perm m (datePart (t.start_date.getD ""))
            (mkStartEvent t)).append_right [mkEndEvent t]
          simpa using h2
    · have he' : truthyStr t.end_date = false := by simpa using he
      rw [processTicket_start m t hs,
        processTicketEnd_skip _ t (fun h => by rw [he'] at h; exact Bool.false_ne_true h.1),
        newEvents_start_only t hs he']
      exact flattenMap_pushEvent_perm m _ _
  · have hs' : truthyStr t.start_date = false := by simpa using hs
    by_cases he : truthyStr t.end_date = true
    · have hne : t.end_date ≠ t.start_date := truthy_ne_falsy _ _ he hs'
      have hany : (mapGetD m (datePart (t.end_date.getD ""))).any
          (fun e => e.ticketId == t.id) = false := by
        rw [List.any_eq_false]
        intro x hx
        simpa using hm x (mem_mapGetD m _ x hx)
      rw [processTicket_nostart m t hs' he, processTicketEnd_push _ t he hne hany,
        newEvents_end_only t hs' he]
      exact flattenMap_pushEvent_perm m _ _
    · have he' : truthyStr t.end_date = false := by simpa using he
      rw [processTicket_skip m t hs' he', newEvents_empty t hs' he']
      simp

theorem foldl_events_perm (ts : List Ticket) (m : EventMap)
    (hnd : (ts.map Ticket.id).Nodup)
    (hm : ∀ t ∈ ts, ∀ e ∈ flattenMap m, e.ticketId ≠ t.id) :
    List.Perm (flattenMap (ts.foldl processTicket m))
      (flattenMap m ++ (ts.map newEvents).flatten) := by
  induction ts generalizing m with
  | nil => simp
  | cons t rest ih =>
    rw [List.map_cons] at hnd
    have hnd' := List.nodup_cons.mp hnd
    have h1 : List.Perm (flattenMap (processTicket m t)) (flattenMap m ++ newEvents t) :=
      processTicket_perm m t (hm t (List.mem_cons_self t rest))
    have hm' : ∀ t' ∈ rest, ∀ e ∈ flattenMap (processTicket m t), e.ticketId ≠ t'.id := by
      intro t' ht' e heP
      rcases List.mem_append.mp (h1.mem_iff.mp heP) with h | h
      · exact hm t' (List.mem_cons_of_mem _ ht') e h
      · rw [newEvents_ticketId t e h]
        intro hEq
        exact hnd'.1 (hEq ▸ List.mem_map_of_mem Ticket.id ht')
    have h2 := ih (processTicket m t) hnd'.2 hm'
    rw [List.foldl_cons]
    refine h2.trans ?_
    rw [List.map_cons, List.flatten_cons]
    have h3 := h1.append_right ((rest.map newEvents).flatten)
    refine h3.trans ?_
    rw [List.append_assoc]

theorem events_perm (tickets : List Ticket) (hnd : (tickets.map Ticket.id).Nodup) :
    List.Perm (events tickets) ((tickets.map newEvents).flatten) := by
  have h := foldl_events_perm tickets [] hnd (by intro t _ e he; simp [flattenMap] at he)
  simpa [events, flattenMap] using h

theorem events_mem (tickets : List Ticket) (hnd : (tickets.map Ticket.id).Nodup)
    (x : CalendarEvent) :
    x ∈ events tickets ↔ ∃ t ∈ tickets, x ∈ newEvents t := by
  rw [(events_perm tickets hnd).mem_iff]
  simp [List.mem_flatten]

theorem countP_flatten_single (ts : List Ticket) (t : Ticket)
    (hnd : (ts.map Ticket.id).Nodup) (ht : t ∈ ts) (p : CalendarEvent → Bool)
    (hp : ∀ e, p e = true → e.ticketId = t.id) :
    ((ts.map newEvents).flatten).countP p = (newEvents t).countP p := by
  induction ts with
  | nil => cases ht
  | cons h rest ih =>
    rw [List.map_cons] at hnd
    have hnd' := List.nodup_cons.mp hnd
    rw [List.map_cons, List.flatten_cons, List.countP_append]
    rcases List.mem_cons.mp ht with rfl | htr
    · have hz : ((rest.map newEvents).flatten).countP p = 0 := by
        rw [List.countP_eq_zero]
        intro e he
        rw [List.mem_flatten] at he
        obtain ⟨l, hl, hel⟩ := he
        obtain ⟨t', ht', rfl⟩ := List.mem_map.mp hl
        intro hpe
        have h1 := hp e hpe
        have h2 := newEvents_ticketId t' e hel
        rw [h1] at h2
        exact hnd'.1 (h2 ▸ List.mem_map_of_mem Ticket.id ht')
      rw [hz]
      omega
    · have hz : (newEvents h).countP p = 0 := by
        rw [List.countP_eq_zero]
        intro e he hpe
        have h1 := hp e hpe
        have h2 := newEvents_ticketId h e he
        rw [h1] at h2
        exact hnd'.1 (h2.symm ▸ List.mem_map_of_mem Ticket.id htr)
      rw [hz, ih hnd'.2 htr]
      omega

theorem newEvents_dates (t : Ticket) :
    (newEvents t).map CalendarEvent.date = expectedDates t := by
  by_cases hs : truthyStr t.start_date = true
  · by_cases he : truthyStr t.end_date = true
    · by_cases hd : datePart (t.end_date.getD "") = datePart (t.start_date.getD "")
      · rw [newEvents_one t hs he hd]
        simp [expectedDates, hs, he, hd, mkStartEvent]
      · rw [newEvents_two t hs he hd]
        simp [expectedDates, hs, he, hd, mkStartEvent, mkEndEvent]
    · have he' : truthyStr t.end_date = false := by simpa using he
      rw [newEvents_start_only t hs he']
      simp [expectedDates, hs, he', mkStartEvent]
  · have hs' : truthyStr t.start_date = false := by simpa using hs
    by_cases he : truthyStr t.end_date = true
    · rw [newEvents_end_only t hs' he]
      simp [expectedDates, hs', he, mkEndEvent]
    · have he' : truthyStr t.end_date = false := by simpa using he
      rw [newEvents_empty t hs' he']
      simp [expectedDates, hs', he']

/-- C1: the calendar projection buckets tickets by date.  For each ticket
of a list with unique ids, there is an event of that ticket on date `d`
exactly when `d` is the day part of its start date or (when present with
a distinct day part) of its end date; a ticket with neither date
contributes no event; and `getEventsForDate d` returns exactly the events
whose `date` field equals `d`. -/
theorem calendar_buckets_by_date (tickets : List Ticket)
    (hnd : (tickets.map Ticket.id).Nodup) (t : Ticket) (ht : t ∈ tickets) :
    (∀ d : String,
      (∃ e ∈ events tickets, e.ticketId = t.id ∧ e.date = d) ↔ d ∈ expectedDates t)
    ∧ (t.start_date = Option.none → t.end_date = Option.none →
        ∀ e ∈ events tickets, e.ticketId ≠ t.id)
    ∧ (∀ (d : String) (e : CalendarEvent),
        e ∈ getEventsForDate (events tickets) d ↔ e ∈ events tickets ∧ e.date = d) := by
  refine ⟨?_, ?_, ?_⟩
  · intro d
    constructor
    · rintro ⟨e, heM, hid, hdate⟩
      obtain ⟨t', ht', he'⟩ := (events_mem tickets hnd e).mp heM
      have h2 := newEvents_ticketId t' e he'
      have hteq : t' = t :=
        List.inj_on_of_nodup_map hnd ht' ht (by rw [← h2, hid])
      rw [hteq] at he'
      rw [← newEvents_dates t]
      exact List.mem_map.mpr ⟨e, he', hdate⟩
    · intro hd
      rw [← newEvents_dates t] at hd
      obtain ⟨e, he', hdate⟩ := List.mem_map.mp hd
      exact ⟨e, (events_mem tickets hnd e).mpr ⟨t, ht, he'⟩,
        newEvents_ticketId t e he', hdate⟩
  · intro hsn hen e heM hid
    obtain ⟨t', ht', he'⟩ := (events_mem tickets hnd e).mp heM
    have h2 := newEvents_ticketId t' e he'
    have hteq : t' = t :=
      List.inj_on_of_nodup_map hnd ht' ht (by rw [← h2, hid])
    rw [hteq] at he'
    rw [newEvents_empty t (by rw [hsn]; rfl) (by rw [hen]; rfl)] at he'
    cases he'
  · intro d e
    simp [getEventsForDate, List.mem_filter]

/-- Concrete input for the calendar claims: two tickets on distinct ids. -/
def wTicket1 : Ticket :=
  { id := "t1", title := "First ticket", start_date := some "2025-01-02T08:00:00",
    end_date := some "2025-01-05", status := .«open», priority := .none }

/-- A second concrete ticket with no dates. -/
def wTicket2 : Ticket :=
  { id := "t2", title := "Second ticket", status := .closed, priority := .high }

/-- C1 witness: the bucketing theorem applied to the concrete two-ticket
list, with its hypotheses discharged by evaluation. -/
theorem calendar_buckets_by_date_witness :
    (([wTicket1, wTicket2].map Ticket.id).Nodup ∧ wTicket1 ∈ [wTicket1, wTicket2]) ∧
    ((∀ d : String,
      (∃ e ∈ events [wTicket1, wTicket2], e.ticketId = wTicket1.id ∧ e.date = d) ↔
        d ∈ expectedDates wTicket1)
    ∧ (wTicket1.start_date = Option.none → wTicket1.end_date = Option.none →
        ∀ e ∈ events [wTicket1, wTicket2], e.ticketId ≠ wTicket1.id)
    ∧ (∀ (d : String) (e : CalendarEvent),
        e ∈ getEventsForDate (events [wTicket1, wTicket2]) d ↔
          e ∈ events [wTicket1, wTicket2] ∧ e.date = d)) :=
  ⟨⟨by decide, by simp⟩,
    calendar_buckets_by_date [wTicket1, wTicket2] (by decide) wTicket1 (by simp)⟩

/-- C6: each ticket of a list with unique ids is projected onto at most
two events; exactly two only when both dates are set with distinct day
parts; and never two events of the same ticket on the same date. -/
theorem ticket_projected_once_or_twice (tickets : List Ticket)
    (hnd : (tickets.map Ticket.id).Nodup) (t : Ticket) (ht : t ∈ tickets) :
    ((events tickets).countP (fun e => e.ticketId == t.id) ≤ 2)
    ∧ ((events tickets).countP (fun e => e.ticketId == t.id) = 2 ↔
        truthyStr t.start_date = true ∧ truthyStr t.end_date = true ∧
          datePart (t.end_date.getD "") ≠ datePart (t.start_date.getD ""))
    ∧ (∀ d : String,
        (events tickets).countP (fun e => e.ticketId == t.id && e.date == d) ≤ 1) := by
  have hcount : ∀ (p : CalendarEvent → Bool), (∀ e, p e = true → e.ticketId = t.id) →
      (events tickets).countP p = (newEvents t).countP p := by
    intro p hp
    rw [(events_perm tickets hnd).countP_eq]
    exact countP_flatten_single tickets t hnd ht p hp
  have hc1 := hcount (fun e => e.ticketId == t.id) (fun e h => by simpa using h)
  have hplen : (newEvents t).countP (fun e => e.ticketId == t.id) = (newEvents t).length := by
    rw [List.countP_eq_length]
    intro e he
    simp [newEvents_ticketId t e he]
  refine ⟨?_, ?_, ?_⟩
  · rw [hc1, hplen]
    by_cases hs : truthyStr t.start_date = true
    · by_cases he : truthyStr t.end_date = true
      · by_cases hd : datePart (t.end_date.getD "") = datePart (t.start_date.getD "")
        · rw [newEvents_one t hs he hd]
          simp
        · rw [newEvents_two t hs he hd]
          simp
      · have he' : truthyStr t.end_date = false := by simpa using he
        rw [newEvents_start_only t hs he']
        simp
    · have hs' : truthyStr t.start_date = false := by simpa using hs
      by_cases he : truthyStr t.end_date = true
      · rw [newEvents_end_only t hs' he]
        simp
      · have he' : truthyStr t.end_date = false := by simpa using he
        rw [newEvents_empty t hs' he']
        simp
  · rw [hc1, hplen]
    by_cases hs : truthyStr t.start_date = true
    · by_cases he : truthyStr t.end_date = true
      · by_cases hd : datePart (t.end_date.getD "") = datePart (t.start_date.getD "")
        · rw [newEvents_one t hs he hd]
          simp [hs, he, hd]
        · rw [newEvents_two t hs he hd]
          simp [hs, he, hd]
      · have he' : truthyStr t.end_date = false := by simpa using he
        rw [newEvents_start_only t hs he']
        simp [hs, he']
    · have hs' : truthyStr t.start_date = false := by simpa using hs
      by_cases he : truthyStr t.end_date = true
      · rw [newEvents_end_only t hs' he]
        simp [hs', he]
      · have he' : truthyStr t.end_date = false := by simpa using he
        rw [newEvents_empty t hs' he']
        simp [hs', he']
  · intro d
    have hcd := hcount (fun e => e.ticketId == t.id && e.date == d)
      (fun e h => by
        rw [Bool.and_eq_true] at h
        simpa using h.1)
    rw [hcd]
    by_cases hs : truthyStr t.start_date = true
    · by_cases he : truthyStr t.end_date = true
      · by_cases hd : datePart (t.end_date.getD "") = datePart (t.start_date.getD "")
        · rw [newEvents_one t hs he hd]
          exact List.countP_le_length _
        · rw [newEvents_two t hs he hd]
          by_cases h1 : datePart (t.start_date.getD "") = d
          · have h2 : datePart (t.end_date.getD "") ≠ d := fun hh => hd (hh.trans h1.symm)
            simp [List.countP_cons, mkStartEvent, mkEndEvent, h1, h2]
          · simp only [List.countP_cons, List.countP_nil]
            have hb1 : ((mkStartEvent t).date == d) = false := by
              simp [mkStartEvent, h1]
            simp [mkStartEvent, mkEndEvent, h1, hb1]
            split <;> simp
      · have he' : truthyStr t.end_date = false := by simpa using he
        rw [newEvents_start_only t hs he']
        exact List.countP_le_length _
    · have hs' : truthyStr t.start_date = false := by simpa using hs
      by_cases he : truthyStr t.end_date = true
      · rw [newEvents_end_only t hs' he]
        exact List.countP_le_length _
      · have he' : truthyStr t.end_date = false := by simpa using he
        rw [newEvents_empty t hs' he']
        simp

/-- C6 witness: the projection-count theorem applied to the concrete
two-ticket list, hypotheses discharged by evaluation. -/
theorem ticket_projected_once_or_twice_witness :
    (([wTicket1, wTicket2].map Ticket.id).Nodup ∧ wTicket1 ∈ [wTicket1, wTicket2]) ∧
    (((events [wTicket1, wTicket2]).countP (fun e => e.ticketId == wTicket1.id) ≤ 2)
    ∧ ((events [wTicket1, wTicket2]).countP (fun e => e.ticketId == wTicket1.id) = 2 ↔
        truthyStr wTicket1.start_date = true ∧ truthyStr wTicket1.end_date = true ∧
          datePart (wTicket1.end_date.getD "") ≠ datePart (wTicket1.start_date.getD ""))
    ∧ (∀ d : String,
        (events [wTicket1, wTicket2]).countP
          (fun e => e.ticketId == wTicket1.id && e.date == d) ≤ 1)) :=
  ⟨⟨by decide, by simp⟩,
    ticket_projected_once_or_twice [wTicket1, wTicket2] (by decide) wTicket1 (by simp)⟩

/-- Concrete input refuting C2 as stated: a resolved ticket with no
labels and priority `none`. -/
def cexTicket : Ticket :=
  { id := "a", title := "Resolved ticket", status := .resolved, priority := .none }

/-- C2 counterexample: for `cexTicket` (no labels, priority none, status
resolved) the code returns the fixed green color, not
`COLOR_PALETTE[hashString(id) % 20]` as the claim requires. -/
theorem event_color_claim_false :
    ¬ getEventColor cexTicket =
      (COLOR_PALETTE.get? (paletteIndex cexTicket.id)).map
        (fun c => EventColor.mk c.className Option.none) := by
  decide

/-- C2 (amended): the first label color, when present, wins (hex colors
as inline style, named colors through the color map with a slate
fallback); otherwise priorities urgent/high/medium/low give fixed
colors; otherwise (priority none) the hash-based palette color applies
only when the status is open, in_progress advances the palette index by
one, resolved is green and closed is slate. -/
theorem event_color_characterization (t : Ticket) :
    (∀ c, firstLabelColor t = some c → startsWithHash c = true →
        getEventColor t = some ⟨"", some c⟩)
    ∧ (∀ c, firstLabelColor t = some c → startsWithHash c = false →
        getEventColor t =
          some ⟨(colorMap.lookup (jsToLower c)).getD "bg-slate-500", Option.none⟩)
    ∧ (firstLabelColor t = Option.none → t.priority = .urgent →
        getEventColor t = some ⟨"bg-red-500", Option.none⟩)
    ∧ (firstLabelColor t = Option.none → t.priority = .high →
        getEventColor t = some ⟨"bg-orange-500", Option.none⟩)
    ∧ (firstLabelColor t = Option.none → t.priority = .medium →
        getEventColor t = some ⟨"bg-yellow-500", Option.none⟩)
    ∧ (firstLabelColor t = Option.none → t.priority = .low →
        getEventColor t = some ⟨"bg-blue-300", Option.none⟩)
    ∧ (firstLabelColor t = Option.none → t.priority = .none → t.status = .«open» →
        getEventColor t = (COLOR_PALETTE.get? (paletteIndex t.id)).map
          (fun c => ⟨c.className, Option.none⟩))
    ∧ (firstLabelColor t = Option.none → t.priority = .none → t.status = .in_progress →
        getEventColor t =
          (COLOR_PALETTE.get? ((paletteIndex t.id + 1) % COLOR_PALETTE.length)).map
            (fun c => ⟨c.className, Option.none⟩))
    ∧ (firstLabelColor t = Option.none → t.priority = .none → t.status = .resolved →
        getEventColor t = some ⟨"bg-green-500", Option.none⟩)
    ∧ (firstLabelColor t = Option.none → t.priority = .none → t.status = .closed →
        getEventColor t = some ⟨"bg-slate-600", Option.none⟩) := by
  refine ⟨?_, ?_, ?_, ?_, ?_, ?_, ?_, ?_, ?_, ?_⟩
  · intro c hc hsh
    simp [getEventColor, hc, hsh]
  · intro c hc hsh
    simp [getEventColor, hc, hsh]
  · intro hc hp
    simp [getEventColor, hc, hp]
  · intro hc hp
    simp [getEventColor, hc, hp]
  · intro hc hp
    simp [getEventColor, hc, hp]
  · intro hc hp
    simp [getEventColor, hc, hp]
  · intro hc hp hst
    simp [getEventColor, hc, hp, hst]
  · intro hc hp hst
    simp [getEventColor, hc, hp, hst]
  · intro hc hp hst
    simp [getEventColor, hc, hp, hst]
  · intro hc hp hst
    simp [getEventColor, hc, hp, hst]

/-- Concrete open ticket for the C2 witness. -/
def wTicket3 : Ticket :=
  { id := "b", title := "Open ticket", status := .«open», priority := .none }

/-- C2 witness: the amended characterization applied to a concrete open
ticket with priority none and no labels. -/
theorem event_color_characterization_witness :
    (firstLabelColor wTicket3 = Option.none ∧ wTicket3.priority = .none ∧
      wTicket3.status = .«open») ∧
    getEventColor wTicket3 = (COLOR_PALETTE.get? (paletteIndex wTicket3.id)).map
      (fun c => EventColor.mk c.className Option.none) :=
  ⟨⟨rfl, rfl, rfl⟩,
    (event_color_characterization wTicket3).2.2.2.2.2.2.1 rfl rfl rfl⟩

theorem hashString_nonneg (s : String) : 0 ≤ hashString s :=
  Int.natCast_nonneg _

theorem palette_index_lt (id : String) : paletteIndex id < COLOR_PALETTE.length := by
  have hmod := Int.emod_lt_of_pos (hashString id)
    (by decide : (0 : Int) < (COLOR_PALETTE.length : Int))
  have hnn := Int.emod_nonneg (hashString id)
    (by decide : (COLOR_PALETTE.length : Int) ≠ 0)
  rw [paletteIndex]
  omega

/-- C5: the color functions are deterministic, and each is a member of
its fixed palette. -/
theorem hash_color_deterministic :
    (∀ userId : Nat, getUserColor userId = getUserColor userId ∧
      ∃ c, getUserColor userId = some c ∧ c ∈ avatarColors)
    ∧ (∀ id : String, ticketHashColor id = ticketHashColor id ∧
      ∃ c, ticketHashColor id = some c ∧ c ∈ COLOR_PALETTE) := by
  constructor
  · intro userId
    refine ⟨rfl, ?_⟩
    have hlt : userId % avatarColors.length < avatarColors.length :=
      Nat.mod_lt _ (by decide)
    rw [getUserColor, List.get?_eq_get hlt]
    exact ⟨_, rfl, List.get_mem _ _ _⟩
  · intro id
    refine ⟨rfl, ?_⟩
    rw [ticketHashColor, List.get?_eq_get (palette_index_lt id)]
    exact ⟨_, rfl, List.get_mem _ _ _⟩

/-- C9: `hashString` is nonnegative, the palette index is always within
the 20-entry palette, and `getEventColor` always returns a color. -/
theorem palette_indexing_safe :
    (∀ id : String, 0 ≤ hashString id ∧ paletteIndex id < COLOR_PALETTE.length ∧
      (COLOR_PALETTE.get? (paletteIndex id)).isSome = true)
    ∧ (∀ t : Ticket, (getEventColor t).isSome = true) := by
  constructor
  · intro id
    refine ⟨hashString_nonneg id, palette_index_lt id, ?_⟩
    rw [List.get?_eq_get (palette_index_lt id)]
    rfl
  · intro t
    have h1 : (COLOR_PALETTE.get? (paletteIndex t.id)).isSome = true := by
      rw [List.get?_eq_get (palette_index_lt t.id)]
      rfl
    have h2 : (COLOR_PALETTE.get? ((paletteIndex t.id + 1) % COLOR_PALETTE.length)).isSome
        = true := by
      rw [List.get?_eq_get (Nat.mod_lt _ (by decide))]
      rfl
    cases hfc : firstLabelColor t with
    | some c =>
      simp only [getEventColor, hfc]
      split <;> rfl
    | none =>
      cases hp : t.priority with
      | urgent => simp [getEventColor, hfc, hp]
      | high => simp [getEventColor, hfc, hp]
      | medium => simp [getEventColor, hfc, hp]
      | low => simp [getEventColor, hfc, hp]
      | none =>
        rw [List.get?_eq_getElem?] at h1 h2
        cases hst : t.status <;>
          simp [getEventColor, hfc, hp, hst, Option.isSome_map, h1, h2]

/-- Leap-year logic of the JS `Date` (Gregorian calendar). -/
def isLeapYear (y : Int) : Bool :=
  (y % 4 == 0 && y % 100 != 0) || y % 400 == 0

/-- The lengths of the twelve months (0-based) of year `y`. -/
def monthLengths (y : Int) : List Nat :=
  [31, if isLeapYear y then 29 else 28, 31, 30, 31, 30, 31, 31, 30, 31, 30, 31]

/-- JS `new Date(y, m + 1, 0).getDate()`: the number of days of 0-based
month `m` of year `y`. -/
def daysInMonthOf (y : Int) (m : Nat) : Nat := (monthLengths y).getD m 0

/-- Sakamoto day-of-week offsets for 1-based months. -/
def sakamotoOffsets : List Int := [0, 3, 2, 5, 0, 3, 5, 1, 4, 6, 2, 4]

/-- JS `new Date(y, m, 1).getDay()` for 0-based month `m`: the weekday
(0 = Sunday) of the first of the month, via Sakamoto's congruence. -/
def firstDayOfWeek (y : Int) (m : Nat) : Nat :=
  let M := m + 1
  let y' : Int := if M < 3 then y - 1 else y
  ((y' + y'.fdiv 4 - y'.fdiv 100 + y'.fdiv 400 + sakamotoOffsets.getD (M - 1) 0 + 1) % 7).toNat

/-- JS `new Date(y, m, 0).getDate()`: the last day of the month before
0-based month `m` (December of the previous year when `m = 0`). -/
def prevMonthLastDayOf (y : Int) (m : Nat) : Nat :=
  if m = 0 then 31 else daysInMonthOf y (m - 1)

/-- The record returned by `getDaysInMonth` on the calendar page. -/
structure MonthGrid where
  daysInMonth : Nat
  startingDayOfWeek : Nat
  prevMonthDays : List Nat
  nextMonthDays : List Nat
deriving DecidableEq, Repr

/-- Function `getDaysInMonth` from the calendar page, for the date with year `y`
and 0-based month `m`: the month length, the weekday of the first, the
trailing days of the previous month filling the first week, and the
leading days of the next month filling the last week
(`totalCells = Math.ceil((startingDayOfWeek + daysInMonth) / 7) * 7`). -/
def getDaysInMonth (y : Int) (m : Nat) : MonthGrid :=
  let daysInMonth := daysInMonthOf y m
  let startingDayOfWeek := firstDayOfWeek y m
  let prevMonthLastDay := prevMonthLastDayOf y m
  let prevMonthDays :=
    (List.range startingDayOfWeek).map
      (fun j => prevMonthLastDay - (startingDayOfWeek - 1 - j))
  let totalCells := ((startingDayOfWeek + daysInMonth + 6) / 7) * 7
  let nextMonthDays :=
    (List.range (totalCells - (startingDayOfWeek + daysInMonth))).map (fun i => i + 1)
  ⟨daysInMonth, startingDayOfWeek, prevMonthDays, nextMonthDays⟩

/-- C8: for every date, `getDaysInMonth` emits exactly
`startingDayOfWeek` previous-month day numbers, and the total cell count
is the least multiple of 7 at least `startingDayOfWeek + daysInMonth`,
so the rendered grid consists of whole weeks. -/
theorem calendar_grid_whole_weeks (y : Int) (m : Nat) :
    ((getDaysInMonth y m).prevMonthDays.length = (getDaysInMonth y m).startingDayOfWeek)
    ∧ (7 ∣ (getDaysInMonth y m).prevMonthDays.length + (getDaysInMonth y m).daysInMonth
        + (getDaysInMonth y m).nextMonthDays.length)
    ∧ ((getDaysInMonth y m).startingDayOfWeek + (getDaysInMonth y m).daysInMonth
        ≤ (getDaysInMonth y m).prevMonthDays.length + (getDaysInMonth y m).daysInMonth
          + (getDaysInMonth y m).nextMonthDays.length)
    ∧ (∀ k : Nat, 7 ∣ k →
        (getDaysInMonth y m).startingDayOfWeek + (getDaysInMonth y m).daysInMonth ≤ k →
        (getDaysInMonth y m).prevMonthDays.length + (getDaysInMonth y m).daysInMonth
          + (getDaysInMonth y m).nextMonthDays.length ≤ k) := by
  simp only [getDaysInMonth, List.length_map, List.length_range]
  refine ⟨by trivial, by omega, by omega, ?_⟩
  intro k hk hle
  omega

/-- C8 witness: the grid theorem evaluated at January 2025, with the
minimality clause discharged at the concrete multiple 35. -/
theorem calendar_grid_whole_weeks_witness :
    ((getDaysInMonth 2025 0).prevMonthDays.length = (getDaysInMonth 2025 0).startingDayOfWeek)
    ∧ (7 ∣ 35)
    ∧ ((getDaysInMonth 2025 0).startingDayOfWeek + (getDaysInMonth 2025 0).daysInMonth ≤ 35)
    ∧ ((getDaysInMonth 2025 0).prevMonthDays.length + (getDaysInMonth 2025 0).daysInMonth
        + (getDaysInMonth 2025 0).nextMonthDays.length ≤ 35) :=
  ⟨(calendar_grid_whole_weeks 2025 0).1, by decide, by decide,
    (calendar_grid_whole_weeks 2025 0).2.2.2 35 (by decide) (by decide)⟩

/-- The `API_URL` constant (`NEXT_PUBLIC_API_URL` defaulting to
localhost). -/
def API_URL : String := "http://localhost:8000"

inductive RecordingStatus where
  | idle
  | recording
  | processing
deriving DecidableEq, Repr

inductive TranscriptionStep where
  | upload
  | transcribing
  | analyzing
  | planning
  | creating
  | complete
deriving DecidableEq, Repr

/-- An audio source (recorded blob or uploaded file). -/
structure AudioFile where
  name : String
deriving DecidableEq, Repr

/-- A ticket as returned by the voice analysis endpoint. -/
structure VTicket where
  id : String
  title : String
  summary : Option String := Option.none
  priority : String := "none"
  assignee_id : Option String := Option.none
  estimated_hours : Option Nat := Option.none
  project_id : Option String := Option.none
deriving DecidableEq, Repr

/-- The `AnalysisResult` payload of `/api/voice/process-meeting`. -/
structure AnalysisResult where
  tickets : List VTicket
  diagram : Option String := Option.none
  summary : String := ""
  ticket_count : Nat := 0
deriving DecidableEq, Repr

/-- The client state of the voice-assistant page that the transcribe and
analyze handlers read and write. -/
structure VoiceState where
  recordingStatus : RecordingStatus
  audioBlob : Option AudioFile
  uploadedFile : Option AudioFile
  transcript : String
  currentStep : TranscriptionStep
  error : String
  analysisResult : Option AnalysisResult
  isAnalyzing : Bool
deriving DecidableEq, Repr

inductive HttpMethod where
  | post
deriving DecidableEq, Repr

/-- A request body: a multipart form (field name, file name) or the JSON
body of the analyze call. -/
inductive RequestBody where
  | formData (fields : List (String × String))
  | jsonTranscript (transcript : String) (project_name : Option String)
deriving DecidableEq, Repr

/-- An outgoing HTTP request issued by a handler. -/
structure Request where
  url : String
  method : HttpMethod
  body : RequestBody
deriving DecidableEq, Repr

/-- A parsed JSON error body, as consumed by the catch paths:
`detail` / `message` fields, the full stringified body, and the
response status used by the final fallback message. -/
structure ErrorBody where
  detail : Option String := Option.none
  message : Option String := Option.none
  stringified : String := "null"
  status : Nat := 500
  statusText : String := ""
deriving DecidableEq, Repr

/-- The success payload of `/api/voice/transcribe-file`. -/
structure TranscribeData where
  transcript : Option String
deriving DecidableEq, Repr

/-- Outcome of the transcription fetch: a parsed success body, a non-ok
response with a parsed error body, or a thrown error (network failure or
JSON parse failure). -/
inductive TranscribeOutcome where
  | ok (data : TranscribeData)
  | httpError (e : ErrorBody)
  | throwErr (msg : String)
deriving DecidableEq, Repr

/-- Outcome of the analysis fetch. -/
inductive AnalyzeOutcome where
  | ok (data : AnalysisResult)
  | httpError (e : ErrorBody)
  | throwErr (msg : String)
deriving DecidableEq, Repr

/-- Handler `transcribeAudio` from the voice-assistant page, as a pure function
of the current state and the outcome of the single fetch it may issue;
returns the new state and the list of requests issued. -/
def transcribeAudio (st : VoiceState) (outcome : TranscribeOutcome) :
    VoiceState × List Request :=
  match jsOrOpt st.uploadedFile st.audioBlob with
  | Option.none =>
    ({ st with error := "No audio to transcribe. Please record or upload an audio file." }, [])
  | some _ =>
    let st1 := { st with recordingStatus := RecordingStatus.processing,
                         currentStep := TranscriptionStep.transcribing,
                         error := "" }
    let fileName := jsOrStr (st.uploadedFile.map AudioFile.name) "recording.webm"
    let req : Request := { url := API_URL ++ "/api/voice/transcribe-file",
                           method := HttpMethod.post,
                           body := RequestBody.formData [("file", fileName)] }
    match outcome with
    | TranscribeOutcome.ok data =>
      let st2 := { st1 with transcript := jsOrStr data.transcript "" }
      let st3 :=
        if truthyStr data.transcript then
          { st2 with currentStep := TranscriptionStep.complete }
        else
          { st2 with error := "No speech detected in the audio. Please try again." }
      ({ st3 with recordingStatus := RecordingStatus.idle }, [req])
    | TranscribeOutcome.httpError e =>
      ({ st1 with error := "Transcription failed: " ++ jsOrStr e.detail "Transcription failed",
                  recordingStatus := RecordingStatus.idle,
                  currentStep := TranscriptionStep.upload }, [req])
    | TranscribeOutcome.throwErr msg =>
      ({ st1 with error := "Transcription failed: " ++ msg,
                  recordingStatus := RecordingStatus.idle,
                  currentStep := TranscriptionStep.upload }, [req])

/-- The error message extraction of the analyze handler:
`responseData.detail || responseData.message || JSON.stringify(responseData)
|| "Server error: <status> <statusText>"`. -/
def analyzeErrorMessage (e : ErrorBody) : String :=
  jsOrS (jsOrStr e.detail "")
    (jsOrS (jsOrStr e.message "")
      (jsOrS e.stringified
        ("Server error: " ++ toString e.status ++ " " ++ e.statusText)))

/-- Handler `analyzeWithAI` from the voice-assistant page, as a pure function of
the current state and the outcome of the single fetch it may issue;
returns the new state and the list of requests issued.  The transient
planning/creating step updates of the success path are collapsed to the
final state. -/
def analyzeWithAI (st : VoiceState) (outcome : AnalyzeOutcome) :
    VoiceState × List Request :=
  if st.transcript = "" then
    ({ st with error := "No transcript to analyze" }, [])
  else
    let st1 := { st with isAnalyzing := true,
                         currentStep := TranscriptionStep.analyzing,
                         error := "" }
    let req : Request := { url := API_URL ++ "/api/voice/process-meeting",
                           method := HttpMethod.post,
                           body := RequestBody.jsonTranscript st.transcript Option.none }
    match outcome with
    | AnalyzeOutcome.ok data =>
      ({ st1 with analysisResult := some data,
                  currentStep := TranscriptionStep.complete,
                  isAnalyzing := false }, [req])
    | AnalyzeOutcome.httpError e =>
      ({ st1 with error := "AI analysis failed: " ++ analyzeErrorMessage e,
                  isAnalyzing := false,
                  currentStep := TranscriptionStep.upload }, [req])
    | AnalyzeOutcome.throwErr msg =>
      ({ st1 with error := "AI analysis failed: " ++ msg,
                  isAnalyzing := false,
                  currentStep := TranscriptionStep.upload }, [req])

theorem string_append_ne_empty (p q : String) (hp : p ≠ "") : p ++ q ≠ "" := by
  obtain ⟨pd⟩ := p
  obtain ⟨qd⟩ := q
  intro h
  cases pd with
  | nil => exact hp rfl
  | cons c cs => simpa using congrArg String.data h

/-- C3: with an empty transcript, `analyzeWithAI` sets the error message
and issues no request, whatever the network would have answered. -/
theorem empty_transcript_rejected (st : VoiceState) (o : AnalyzeOutcome)
    (h : st.transcript = "") :
    (analyzeWithAI st o).2 = [] ∧
    (analyzeWithAI st o).1.error = "No transcript to analyze" := by
  rw [analyzeWithAI, if_pos h]
  exact ⟨rfl, rfl⟩

/-- Concrete state for the voice-pipeline witnesses: an uploaded file and
a nonempty transcript. -/
def wVoiceState : VoiceState :=
  { recordingStatus := RecordingStatus.idle
    audioBlob := Option.none
    uploadedFile := some ⟨"meeting.mp3"⟩
    transcript := "hello team"
    currentStep := TranscriptionStep.complete
    error := ""
    analysisResult := Option.none
    isAnalyzing := false }

/-- C3 witness: the empty-transcript guard applied to the concrete state
with an empty transcript. -/
theorem empty_transcript_rejected_witness :
    ({ wVoiceState with transcript := "" } : VoiceState).transcript = "" ∧
    ((analyzeWithAI { wVoiceState with transcript := "" }
        (AnalyzeOutcome.httpError {})).2 = [] ∧
      (analyzeWithAI { wVoiceState with transcript := "" }
        (AnalyzeOutcome.httpError {})).1.error = "No transcript to analyze") :=
  ⟨rfl, empty_transcript_rejected { wVoiceState with transcript := "" }
    (AnalyzeOutcome.httpError {}) rfl⟩

/-- C4: any failing step (non-ok response or thrown error, in either the
transcription or the analysis handler) issues exactly the one request
already sent and no further one, surfaces a nonempty error message, and
resets the processing step to its initial value `upload`. -/
theorem pipeline_failure_aborts (st : VoiceState) (e e' : ErrorBody) (m m' : String)
    (haudio : (jsOrOpt st.uploadedFile st.audioBlob).isSome = true)
    (htr : st.transcript ≠ "") :
    ((transcribeAudio st (TranscribeOutcome.httpError e)).2.length = 1
      ∧ (transcribeAudio st (TranscribeOutcome.httpError e)).1.error ≠ ""
      ∧ (transcribeAudio st (TranscribeOutcome.httpError e)).1.currentStep
          = TranscriptionStep.upload)
    ∧ ((transcribeAudio st (TranscribeOutcome.throwErr m)).2.length = 1
      ∧ (transcribeAudio st (TranscribeOutcome.throwErr m)).1.error ≠ ""
      ∧ (transcribeAudio st (TranscribeOutcome.throwErr m)).1.currentStep
          = TranscriptionStep.upload)
    ∧ ((analyzeWithAI st (AnalyzeOutcome.httpError e')).2.length = 1
      ∧ (analyzeWithAI st (AnalyzeOutcome.httpError e')).1.error ≠ ""
      ∧ (analyzeWithAI st (AnalyzeOutcome.httpError e')).1.currentStep
          = TranscriptionStep.upload)
    ∧ ((analyzeWithAI st (AnalyzeOutcome.throwErr m')).2.length = 1
      ∧ (analyzeWithAI st (AnalyzeOutcome.throwErr m')).1.error ≠ ""
      ∧ (analyzeWithAI st (AnalyzeOutcome.throwErr m')).1.currentStep
          = TranscriptionStep.upload) := by
  obtain ⟨f, hf⟩ := Option.isSome_iff_exists.mp haudio
  refine ⟨?_, ?_, ?_, ?_⟩
  · rw [transcribeAudio, hf]
    exact ⟨rfl, string_append_ne_empty _ _ (by decide), rfl⟩
  · rw [transcribeAudio, hf]
    exact ⟨rfl, string_append_ne_empty _ _ (by decide), rfl⟩
  · rw [analyzeWithAI, if_neg htr]
    exact ⟨rfl, string_append_ne_empty _ _ (by decide), rfl⟩
  · rw [analyzeWithAI, if_neg htr]
    exact ⟨rfl, string_append_ne_empty _ _ (by decide), rfl⟩

/-- C4 witness: the failure-abort theorem applied to the concrete voice
state and a concrete error body. -/
theorem pipeline_failure_aborts_witness :
    ((jsOrOpt wVoiceState.uploadedFile wVoiceState.audioBlob).isSome = true ∧
      wVoiceState.transcript ≠ "") ∧
    ((transcribeAudio wVoiceState
        (TranscribeOutcome.httpError { detail := some "boom" })).2.length = 1
      ∧ (transcribeAudio wVoiceState
          (TranscribeOutcome.httpError { detail := some "boom" })).1.error ≠ ""
      ∧ (transcribeAudio wVoiceState
          (TranscribeOutcome.httpError { detail := some "boom" })).1.currentStep
          = TranscriptionStep.upload) :=
  ⟨⟨rfl, by decide⟩,
    (pipeline_failure_aborts wVoiceState { detail := some "boom" } {} "net down" "oops"
      rfl (by decide)).1⟩

/-- C7: when the handlers do issue their request, the transcription
handler sends exactly one POST to `API_URL ++ "/api/voice/transcribe-file"`
whose multipart body carries the single "file" field, and the analysis
handler sends exactly one POST to `API_URL ++ "/api/voice/process-meeting"`
whose JSON body carries the transcript (and a null project name). -/
theorem voice_endpoints_shape (st : VoiceState) (o : TranscribeOutcome)
    (o' : AnalyzeOutcome)
    (haudio : (jsOrOpt st.uploadedFile st.audioBlob).isSome = true)
    (htr : st.transcript ≠ "") :
    (transcribeAudio st o).2
      = [{ url := API_URL ++ "/api/voice/transcribe-file",
           method := HttpMethod.post,
           body := RequestBody.formData
             [("file", jsOrStr (st.uploadedFile.map AudioFile.name) "recording.webm")] }]
    ∧ (analyzeWithAI st o').2
      = [{ url := API_URL ++ "/api/voice/process-meeting",
           method := HttpMethod.post,
           body := RequestBody.jsonTranscript st.transcript Option.none }] := by
  obtain ⟨f, hf⟩ := Option.isSome_iff_exists.mp haudio
  constructor
  · rw [transcribeAudio, hf]
    cases o <;> rfl
  · rw [analyzeWithAI, if_neg htr]
    cases o' <;> rfl

/-- C7 witness: the endpoint-shape theorem applied to the concrete voice
state and outcomes. -/
theorem voice_endpoints_shape_witness :
    ((jsOrOpt wVoiceState.uploadedFile wVoiceState.audioBlob).isSome = true ∧
      wVoiceState.transcript ≠ "") ∧
    ((transcribeAudio wVoiceState (TranscribeOutcome.throwErr "x")).2
      = [{ url := API_URL ++ "/api/voice/transcribe-file",
           method := HttpMethod.post,
           body := RequestBody.formData
             [("file", jsOrStr (wVoiceState.uploadedFile.map AudioFile.name)
                 "recording.webm")] }]
    ∧ (analyzeWithAI wVoiceState (AnalyzeOutcome.throwErr "y")).2
      = [{ url := API_URL ++ "/api/voice/process-meeting",
           method := HttpMethod.post,
           body := RequestBody.jsonTranscript wVoiceState.transcript Option.none }]) :=
  ⟨⟨rfl, by decide⟩,
    voice_endpoints_shape wVoiceState (TranscribeOutcome.throwErr "x")
      (AnalyzeOutcome.throwErr "y") rfl (by decide)⟩

/-- The create/edit form state of the tickets page (`TicketCreate`). -/
structure FormState where
  title : String
  summary : Option String := some ""
  assignee : Option String := some ""
  start_date : Option String := Option.none
  end_date : Option String := Option.none
  status : Option TicketStatus := some TicketStatus.«open»
deriving DecidableEq, Repr

/-- The JSON payload sent by `createTicket` / `updateTicket`; absent
optional fields are `none`. -/
structure TicketPayload where
  title : String
  status : Option TicketStatus
  summary : Option String := Option.none
  assignee : Option String := Option.none
  start_date : Option String := Option.none
  end_date : Option String := Option.none
deriving DecidableEq, Repr

/-- The `if (field && field.trim()) payload.field = field.trim()` idiom
of the tickets page. -/
def includeTrimmed (o : Option String) : Option String :=
  match o with
  | Option.none => Option.none
  | some s => if s ≠ "" ∧ jsTrim s ≠ "" then some (jsTrim s) else Option.none

/-- The `if (formData.start_date) payload.start_date = formData.start_date`
idiom of the tickets page. -/
def includeDate (o : Option String) : Option String :=
  match o with
  | Option.none => Option.none
  | some s => if s ≠ "" then some s else Option.none

/-- The payload built by `createTicket` (status defaulted to open via
`formData.status || "open"`). -/
def buildCreatePayload (f : FormState) : TicketPayload :=
  { title := jsTrim f.title
    status := some (f.status.getD TicketStatus.«open»)
    summary := includeTrimmed f.summary
    assignee := includeTrimmed f.assignee
    start_date := includeDate f.start_date
    end_date := includeDate f.end_date }

/-- The payload built by `updateTicket` (status sent as-is). -/
def buildUpdatePayload (f : FormState) : TicketPayload :=
  { title := jsTrim f.title
    status := f.status
    summary := includeTrimmed f.summary
    assignee := includeTrimmed f.assignee
    start_date := includeDate f.start_date
    end_date := includeDate f.end_date }

theorem includeTrimmed_spec (o : Option String) (v : String)
    (h : includeTrimmed o = some v) :
    ∃ s, o = some s ∧ jsTrim s ≠ "" ∧ v = jsTrim s := by
  cases o with
  | none => cases h
  | some s =>
    rw [includeTrimmed] at h
    split at h
    · rename_i hc
      cases h
      exact ⟨s, rfl, hc.2, rfl⟩
    · cases h

theorem includeTrimmed_ws (s : String) (h : jsTrim s = "") :
    includeTrimmed (some s) = Option.none := by
  rw [includeTrimmed, if_neg]
  intro hc
  exact hc.2 h

theorem includeDate_spec (o : Option String) (v : String)
    (h : includeDate o = some v) : o = some v := by
  cases o with
  | none => cases h
  | some s =>
    rw [includeDate] at h
    split at h
    · cases h
      rfl
    · cases h

/-- C10: both the create and the update payload carry the trimmed form
title; they contain summary/assignee only when the trimmed form value is
nonempty (and then carry the trimmed value); they contain
start_date/end_date only when the form has them set; and a
whitespace-only summary or assignee is never sent. -/
theorem payload_normalization (f : FormState) :
    ((buildCreatePayload f).title = jsTrim f.title
      ∧ (buildUpdatePayload f).title = jsTrim f.title)
    ∧ (∀ v, (buildCreatePayload f).summary = some v →
        ∃ s, f.summary = some s ∧ jsTrim s ≠ "" ∧ v = jsTrim s)
    ∧ (∀ v, (buildCreatePayload f).assignee = some v →
        ∃ s, f.assignee = some s ∧ jsTrim s ≠ "" ∧ v = jsTrim s)
    ∧ (∀ v, (buildUpdatePayload f).summary = some v →
        ∃ s, f.summary = some s ∧ jsTrim s ≠ "" ∧ v = jsTrim s)
    ∧ (∀ v, (buildUpdatePayload f).assignee = some v →
        ∃ s, f.assignee = some s ∧ jsTrim s ≠ "" ∧ v = jsTrim s)
    ∧ (∀ v, (buildCreatePayload f).start_date = some v → f.start_date = some v)
    ∧ (∀ v, (buildCreatePayload f).end_date = some v → f.end_date = some v)
    ∧ (∀ v, (buildUpdatePayload f).start_date = some v → f.start_date = some v)
    ∧ (∀ v, (buildUpdatePayload f).end_date = some v → f.end_date = some v)
    ∧ (∀ s, f.summary = some s → jsTrim s = "" →
        (buildCreatePayload f).summary = Option.none
          ∧ (buildUpdatePayload f).summary = Option.none)
    ∧ (∀ s, f.assignee = some s → jsTrim s = "" →
        (buildCreatePayload f).assignee = Option.none
          ∧ (buildUpdatePayload f).assignee = Option.none) := by
  refine ⟨⟨rfl, rfl⟩, ?_, ?_, ?_, ?_, ?_, ?_, ?_, ?_, ?_, ?_⟩
  · exact fun v h => includeTrimmed_spec _ v h
  · exact fun v h => includeTrimmed_spec _ v h
  · exact fun v h => includeTrimmed_spec _ v h
  · exact fun v h => includeTrimmed_spec _ v h
  · exact fun v h => includeDate_spec _ v h
  · exact fun v h => includeDate_spec _ v h
  · exact fun v h => includeDate_spec _ v h
  · exact fun v h => includeDate_spec _ v h
  · intro s hs hws
    have h := includeTrimmed_ws s hws
    constructor
    · show includeTrimmed f.summary = Option.none
      rw [hs, h]
    · show includeTrimmed f.summary = Option.none
      rw [hs, h]
  · intro s hs hws
    have h := includeTrimmed_ws s hws
    constructor
    · show includeTrimmed f.assignee = Option.none
      rw [hs, h]
    · show includeTrimmed f.assignee = Option.none
      rw [hs, h]

/-- Concrete form state for the C10 witness: a padded title, a
whitespace-only summary, a padded assignee and one set date. -/
def wForm : FormState :=
  { title := "  Fix bug  ", summary := some "   ", assignee := some " ana ",
    start_date := some "2025-03-04", end_date := Option.none,
    status := some TicketStatus.«open» }

/-- C10 witness: the normalization theorem applied to the concrete form,
with the whitespace-only clause discharged by evaluation. -/
theorem payload_normalization_witness :
    (wForm.summary = some "   " ∧ jsTrim "   " = "") ∧
    ((buildCreatePayload wForm).summary = Option.none
      ∧ (buildUpdatePayload wForm).summary = Option.none) :=
  ⟨⟨rfl, by decide⟩,
    (payload_normalization wForm).2.2.2.2.2.2.2.2.2.1 "   " rfl (by decide)⟩
